import Mathlib

/-!
A shallow embedding of the libpod BoltDB state layer
(`libpod/boltdb_state_internal.go`): the bucket schema, the runtime
configuration validator (`checkRuntimeConfig`, `readOnlyValidateConfig`),
entity hydration (`getContainerFromDB`, `getPodFromDB`, `getVolumeFromDB`)
and the container mutators (`addContainer`, `removeContainer`).

Buckets are modelled as association lists from string keys (byte strings in
bolt) to values; the ten top-level buckets are the fields of `DB` (after
initialization the store is assumed well formed, as the source does — the
`getXBucket` accessors can then never fail).  A bolt write transaction rolls
back on error, so `runTx` discards the partial state produced by a failing
transaction body and returns the input store, modelling `db.Update`
(respectively the caller's transaction around `removeContainer`).  An
unguarded bolt call on a `nil` sub-bucket panics; this is modelled by the
distinguished outcome `TxOut.fault`.
-/

set_option autoImplicit false

namespace Libpod

/-- Association-list lookup, modelling `bucket.Get(key)` / `bucket.Bucket(key)`
(`nil` result becomes `none`). -/
def alGet {α : Type} : List (String × α) → String → Option α
  | [], _ => none
  | (k, v) :: rest, key => if k = key then some v else alGet rest key

/-- Association-list insert-or-replace, modelling `bucket.Put(key, v)` /
`bucket.CreateBucket(key)`.  Bolt stores keys in sorted order; only iteration
order depends on this, and no modelled property does, so the entry keeps its
list position (new keys are appended). -/
def alPut {α : Type} : List (String × α) → String → α → List (String × α)
  | [], key, v => [(key, v)]
  | (k, w) :: rest, key, v =>
    if k = key then (k, v) :: rest else (k, w) :: alPut rest key v

/-- Association-list removal, modelling `bucket.Delete(key)` /
`bucket.DeleteBucket(key)`.  Deleting an absent key is a no-op, as in bolt. -/
def alDelete {α : Type} : List (String × α) → String → List (String × α)
  | [], _ => []
  | (k, w) :: rest, key =>
    if k = key then alDelete rest key else (k, w) :: alDelete rest key

/-- Go `bytes.Equal` on possibly-`nil` byte slices: a `nil` slice is equal to
an empty one. -/
def bytesEqual (a b : Option String) : Bool :=
  (a.getD "") == (b.getD "")

/-- Go `path/filepath.Base` restricted to slash-separated paths: the last
non-empty component, `"."` for the empty path, `"/"` for all-slash paths. -/
def filepathBase (p : String) : String :=
  if p = "" then "."
  else
    match ((p.splitOn "/").filter (fun c => c ≠ "")).getLast? with
    | some c => c
    | none => "/"

/-- The serialized container configuration: the fields of the opaque
`ctr.config` JSON blob that this layer reads back (ID, name, namespace,
lock ID, OCI runtime name) or hoists into dedicated keys (forward dependency
edges, named-volume references).  The `Namespace` field is called `ns`
because `namespace` is a Lean keyword. -/
structure ContainerConfig where
  id : String
  name : String
  ns : String
  lockID : Nat
  ociRuntime : String
  dependencies : List String
  namedVolumes : List String
  deriving DecidableEq

/-- The serialized pod configuration (the fields this layer reads back). -/
structure PodConfig where
  id : String
  name : String
  ns : String
  lockID : Nat
  deriving DecidableEq

/-- The serialized volume configuration (the fields this layer reads back). -/
structure VolumeConfig where
  name : String
  lockID : Nat
  deriving DecidableEq

/-- An opaque serialized blob as stored under a `config` or `state` key:
`json.Marshal` of an entity config is injective into this type, and
`json.Unmarshal` into a given entity type succeeds exactly on blobs of the
matching constructor. -/
inductive Blob where
  | ctrConfig (c : ContainerConfig)
  | podConfig (p : PodConfig)
  | volConfig (v : VolumeConfig)
  | raw (s : String)
  deriving DecidableEq

/-- `json.Unmarshal` into a container config. -/
def unmarshalCtrConfig : Blob → Option ContainerConfig
  | .ctrConfig c => some c
  | _ => none

/-- `json.Unmarshal` into a pod config. -/
def unmarshalPodConfig : Blob → Option PodConfig
  | .podConfig p => some p
  | _ => none

/-- `json.Unmarshal` into a volume config. -/
def unmarshalVolConfig : Blob → Option VolumeConfig
  | .volConfig v => some v
  | _ => none

/-- A per-container sub-bucket under `ctr`: keys `config`, `state`,
`namespace` (field `ns`), `pod-id` (field `podID`), `netns`, and the nested
`dependencies` sub-bucket (reverse edges, dependent-ID to dependent-name).
`none` models an absent key or absent sub-bucket. -/
structure CtrBkt where
  config : Option Blob
  state : Option Blob
  ns : Option String
  podID : Option String
  netns : Option String
  dependencies : Option (List (String × String))
  deriving DecidableEq

/-- A per-pod sub-bucket under `pod`: keys `config`, `state`, `namespace`
(field `ns`) and the nested `containers` sub-bucket (member-ID to name). -/
structure PodBkt where
  config : Option Blob
  state : Option Blob
  ns : Option String
  containers : Option (List (String × String))
  deriving DecidableEq

/-- A per-volume sub-bucket under `vol`: keys `config`, `state` and the
nested `vol-dependencies` sub-bucket (container-ID to container-ID). -/
structure VolBkt where
  config : Option Blob
  state : Option Blob
  volDependencies : Option (List (String × String))
  deriving DecidableEq

/-- The well-formed store: the ten top-level buckets created at
initialization (`id-registry`, `name-registry`, `ns-registry`, `ctr`,
`all-ctrs`, `pod`, `allPods`, `vol`, `allVolumes`, `runtime-config`). -/
structure DB where
  idRegistry : List (String × String)
  nameRegistry : List (String × String)
  nsRegistry : List (String × String)
  ctr : List (String × CtrBkt)
  allCtrs : List (String × String)
  pod : List (String × PodBkt)
  allPods : List (String × String)
  vol : List (String × VolBkt)
  allVols : List (String × String)
  runtimeConfig : List (String × String)
  deriving DecidableEq

/-- The empty (freshly initialized) store. -/
def emptyDB : DB :=
  ⟨[], [], [], [], [], [], [], [], [], []⟩

/-- The sentinel error constants of the `define` package that the source
wraps (`define.ErrNoSuchCtr`, `define.ErrCtrExists`, ...); `wrapped` stands
for a propagated non-`define` error (engine, JSON, or lock-manager error). -/
inductive DefineErr where
  | errNoSuchCtr
  | errNoSuchPod
  | errNoSuchVolume
  | errCtrExists
  | errNSMismatch
  | errInvalidArg
  | errDBBadConfig
  | errInternal
  | wrapped
  deriving DecidableEq

/-- One constructor per error-return site of the modelled functions, each
carrying the identifying data that the source interpolates into the error
message at that site. -/
inductive Err where
  | addCtrNSMismatch (ctrID sns ctrNS : String)
  | addNoSuchPod (podID : String)
  | addPodMissingCtrsBucket (podID : String)
  | addPodNSMismatch (ctrID ctrNS podID podNS : String)
  | addIDExists (id : String)
  | addNameExists (name : String)
  | addBucketExists (id : String)
  | addDepNoSuchCtr (ctrID dep : String)
  | addDepNotInPod (ctrID dep podID : String)
  | addDepDifferentPod (ctrID dep otherPod : String)
  | addDepInPod (ctrID dep : String)
  | addDepNSMismatch (ctrID ctrNS dep : String) (depNS : Option String)
  | addDepMissingDepsBucket (dep : String)
  | addNoSuchVolume (vol ctrID : String)
  | rmNoSuchPod (podID : String)
  | rmNoSuchCtr (id : String)
  | rmCtrNSMismatch (id ctrNS sns : String)
  | rmPodNSMismatch (podID podNS sns : String)
  | rmCtrNotInPod (ctrID podID : String)
  | rmMissingDepsBucket (id : String)
  | rmStillReferenced (id : String) (deps : List String)
  | hydNoSuchCtr (id : String)
  | hydCtrNSMismatch (id : String) (ctrNS : Option String) (sns : String)
  | hydCtrMissingConfig (id : String)
  | hydCtrUnmarshal (id : String)
  | hydCtrLock (id : String)
  | hydCtrUnknownOCIRuntime (id runtimeName : String)
  | hydNoSuchPod (id : String)
  | hydPodNSMismatch (id : String) (podNS : Option String) (sns : String)
  | hydPodMissingConfig (id : String)
  | hydPodUnmarshal (id : String)
  | hydPodLock (id : String)
  | hydNoSuchVolume (name : String)
  | hydVolMissingConfig (name : String)
  | hydVolUnmarshal (name : String)
  | hydVolLock (name : String)
  | badConfigMismatch (fieldName dbValue runtimeValue : String)
  deriving DecidableEq

/-- The `define` sentinel that the source wraps at each error site. -/
def Err.defineKind : Err → DefineErr
  | .addCtrNSMismatch .. => .errNSMismatch
  | .addNoSuchPod .. => .errNoSuchPod
  | .addPodMissingCtrsBucket .. => .errInternal
  | .addPodNSMismatch .. => .errNSMismatch
  | .addIDExists .. => .errCtrExists
  | .addNameExists .. => .errCtrExists
  | .addBucketExists .. => .wrapped
  | .addDepNoSuchCtr .. => .errNoSuchCtr
  | .addDepNotInPod .. => .errInvalidArg
  | .addDepDifferentPod .. => .errInvalidArg
  | .addDepInPod .. => .errInvalidArg
  | .addDepNSMismatch .. => .errNSMismatch
  | .addDepMissingDepsBucket .. => .errInternal
  | .addNoSuchVolume .. => .errNoSuchVolume
  | .rmNoSuchPod .. => .errNoSuchPod
  | .rmNoSuchCtr .. => .errNoSuchCtr
  | .rmCtrNSMismatch .. => .errNSMismatch
  | .rmPodNSMismatch .. => .errNSMismatch
  | .rmCtrNotInPod .. => .errNoSuchCtr
  | .rmMissingDepsBucket .. => .errInternal
  | .rmStillReferenced .. => .errCtrExists
  | .hydNoSuchCtr .. => .errNoSuchCtr
  | .hydCtrNSMismatch .. => .errNSMismatch
  | .hydCtrMissingConfig .. => .errInternal
  | .hydCtrUnmarshal .. => .wrapped
  | .hydCtrLock .. => .wrapped
  | .hydCtrUnknownOCIRuntime .. => .errInternal
  | .hydNoSuchPod .. => .errNoSuchPod
  | .hydPodNSMismatch .. => .errNSMismatch
  | .hydPodMissingConfig .. => .errInternal
  | .hydPodUnmarshal .. => .wrapped
  | .hydPodLock .. => .wrapped
  | .hydNoSuchVolume .. => .errNoSuchVolume
  | .hydVolMissingConfig .. => .errInternal
  | .hydVolUnmarshal .. => .wrapped
  | .hydVolLock .. => .wrapped
  | .badConfigMismatch .. => .errDBBadConfig

/-- Outcome of a transaction body: success with a value, an error return
(the transaction will be rolled back), or a runtime fault (`nil` bucket
dereference panic). -/
inductive TxOut (α : Type) where
  | ok (a : α)
  | err (e : Err)
  | fault
  deriving DecidableEq

/-- Observable outcome of a store operation: the committed store, or an
error together with the (unchanged, rolled-back) store, or a fault. -/
inductive OpResult where
  | ok (db : DB)
  | err (e : Err) (db : DB)
  | fault
  deriving DecidableEq

/-- `db.Update` (and the caller's transaction around `removeContainer`):
commit on success, roll back to the input store on error. -/
def runTx (db : DB) : TxOut DB → OpResult
  | .ok dbNew => .ok dbNew
  | .err e => .err e db
  | .fault => .fault

/-- The in-memory container object handed to the mutators: its config, the
marshalled-state blob, and the netns path.  `getNetNSPath(ctr)` and
`ctr.Dependencies()` live outside this file in the repository; per the spec
the netns path and the forward dependency list are extracted from the
container object, the latter from its config. -/
structure Container where
  config : ContainerConfig
  stateBlob : String
  netNSPath : String
  deriving DecidableEq

/-- Modelled from the spec: `ctr.Dependencies()` (defined outside the source
file) returns the forward dependency edges declared in the container's
opaque config. -/
def Container.Dependencies (c : Container) : List String :=
  c.config.dependencies

/-- The in-memory pod object handed to the mutators. -/
structure Pod where
  config : PodConfig
  deriving DecidableEq

/-- An optional byte-slice value: `nil` (`none`) when the string is empty,
as the source computes for the `namespace` and `netns` keys. -/
def optKeyVal (s : String) : Option String :=
  if s ≠ "" then some s else none

/-- Lines 489–492 of the source: `ctrNamespace` is the container's namespace
as a byte slice, `nil` when the namespace is empty. -/
def ctrNamespaceOpt (c : Container) : Option String :=
  optKeyVal c.config.ns

/-! ## Container Mutator — Add (`addContainer`, lines 467–681) -/

/-- Lines 531–557 of `addContainer`: if a pod was given, look it up under
`pod`, require its `containers` sub-bucket, and require its stored namespace
to equal the container's.  Returns the pod together with its sub-bucket and
its `containers` sub-bucket contents. -/
def addPodLookup (pod : Option Pod) (ctrNamespace : Option String)
    (ctrID ctrNS : String) (db : DB) :
    Except Err (Option (Pod × PodBkt × List (String × String))) :=
  match pod with
  | none => .ok none
  | some p =>
    match alGet db.pod p.config.id with
    | none => .error (Err.addNoSuchPod p.config.id)
    | some podDB =>
      match podDB.containers with
      | none => .error (Err.addPodMissingCtrsBucket p.config.id)
      | some podCtrs =>
        if bytesEqual podDB.ns ctrNamespace then .ok (some (p, podDB, podCtrs))
        else .error (Err.addPodNSMismatch ctrID ctrNS p.config.id p.config.ns)

/-- Lines 625–640 of `addContainer`: the pod-coherence check for one
declared dependency, given the `pod-id` the new container is being added
with (`podIDOpt`, `none` when no pod was supplied) and the `pod-id` stored
in the dependency's sub-bucket (`depCtrPod`).  `none` means the check
passes. -/
def addDepPodCheck (ctrID d : String) (podIDOpt depCtrPod : Option String) :
    Option Err :=
  match podIDOpt with
  | some pid =>
    match depCtrPod with
    | none => some (Err.addDepNotInPod ctrID d pid)
    | some dpid =>
      if dpid ≠ pid then some (Err.addDepDifferentPod ctrID d dpid)
      else none
  | none =>
    match depCtrPod with
    | some _ => some (Err.addDepInPod ctrID d)
    | none => none

/-- Lines 616–654 of `addContainer`: for each declared dependency, look up
its sub-bucket under `ctr`, enforce pod coherence (in a pod: the dependency
must store exactly this pod's `pod-id`; not in a pod: the dependency must
store no `pod-id`), enforce namespace coherence, and append the reverse edge
into the dependency's `dependencies` sub-bucket. -/
def addCtrDeps (ctrID ctrName : String) (ctrNamespace : Option String)
    (ctrNS : String) (podIDOpt : Option String) :
    List String → List (String × CtrBkt) → TxOut (List (String × CtrBkt))
  | [], ctrMap => .ok ctrMap
  | d :: rest, ctrMap =>
    match alGet ctrMap d with
    | none => .err (Err.addDepNoSuchCtr ctrID d)
    | some depBkt =>
      match addDepPodCheck ctrID d podIDOpt depBkt.podID with
      | some e => .err e
      | none =>
        if bytesEqual ctrNamespace depBkt.ns then
          match depBkt.dependencies with
          | none => .err (Err.addDepMissingDepsBucket d)
          | some l =>
            addCtrDeps ctrID ctrName ctrNamespace ctrNS podIDOpt rest
              (alPut ctrMap d { depBkt with dependencies := some (alPut l ctrID ctrName) })
        else .err (Err.addDepNSMismatch ctrID ctrNS d depBkt.ns)

/-- Lines 663–676 of `addContainer`: for each named volume referenced in the
container's config, look up its sub-bucket under `vol` (absence is
no-such-volume), then access its `vol-dependencies` sub-bucket with no `nil`
guard — an absent sub-bucket is a `nil` dereference (`fault`) — and insert
the container's ID if not already present. -/
def addCtrVolDeps (ctrID : String) :
    List String → List (String × VolBkt) → TxOut (List (String × VolBkt))
  | [], volMap => .ok volMap
  | v :: rest, volMap =>
    match alGet volMap v with
    | none => .err (Err.addNoSuchVolume v ctrID)
    | some volDB =>
      match volDB.volDependencies with
      | none => .fault
      | some l =>
        if alGet l ctrID = none then
          addCtrVolDeps ctrID rest
            (alPut volMap v { volDB with volDependencies := some (alPut l ctrID ctrID) })
        else addCtrVolDeps ctrID rest volMap

/-- Lines 577–581 of `addContainer`: `ns-registry[ID] = namespace`, written
only when the namespace is non-empty (`ctrNamespace` non-`nil`). -/
def putNSRegistry (ctrID : String) (ctrNamespace : Option String) (db : DB) :
    DB :=
  match ctrNamespace with
  | some nsv => { db with nsRegistry := alPut db.nsRegistry ctrID nsv }
  | none => db

/-- Lines 656–661 of `addContainer`: when a pod was supplied, add the new
container to the pod's `containers` sub-bucket. -/
def putPodCtrEntry (ctrID ctrName : String)
    (podInfo : Option (Pod × PodBkt × List (String × String))) (db : DB) :
    DB :=
  match podInfo with
  | some (p, podDB, podCtrs) =>
    let podDB2 : PodBkt :=
      { podDB with containers := some (alPut podCtrs ctrID ctrName) }
    { db with pod := alPut db.pod p.config.id podDB2 }
  | none => db

/-- The body of `addContainer` (lines 467–679): namespace precheck, marshal,
pod lookup, ID/name collision checks, registry and sub-bucket writes,
dependency reverse edges, pod membership, and volume back-references. -/
def addContainerBody (sns : String) (ctr : Container) (pod : Option Pod)
    (db : DB) : TxOut DB :=
  if sns ≠ "" ∧ sns ≠ ctr.config.ns then
    .err (Err.addCtrNSMismatch ctr.config.id sns ctr.config.ns)
  else
    let configJSON := Blob.ctrConfig ctr.config
    let stateJSON := Blob.raw ctr.stateBlob
    let netNSPath := ctr.netNSPath
    let dependsCtrs := ctr.Dependencies
    let ctrID := ctr.config.id
    let ctrName := ctr.config.name
    let ctrNamespace := ctrNamespaceOpt ctr
    match addPodLookup pod ctrNamespace ctrID ctr.config.ns db with
    | .error e => .err e
    | .ok podInfo =>
      match alGet db.idRegistry ctrID with
      | some _ => .err (Err.addIDExists ctrID)
      | none =>
        match alGet db.nameRegistry ctrName with
        | some _ => .err (Err.addNameExists ctrName)
        | none =>
          let db1 : DB := { db with
            idRegistry := alPut db.idRegistry ctrID ctrName
            nameRegistry := alPut db.nameRegistry ctrName ctrID }
          let db2 : DB := putNSRegistry ctrID ctrNamespace db1
          let db3 : DB := { db2 with allCtrs := alPut db2.allCtrs ctrID ctrName }
          match alGet db3.ctr ctrID with
          | some _ => .err (Err.addBucketExists ctrID)
          | none =>
            let newBkt : CtrBkt := {
              config := some configJSON
              state := some stateJSON
              ns := ctrNamespace
              podID := pod.map (fun p => p.config.id)
              netns := optKeyVal netNSPath
              dependencies := some [] }
            let db4 : DB := { db3 with ctr := alPut db3.ctr ctrID newBkt }
            match addCtrDeps ctrID ctrName ctrNamespace ctr.config.ns
                (pod.map (fun p => p.config.id)) dependsCtrs db4.ctr with
            | .err e => .err e
            | .fault => .fault
            | .ok ctrMap =>
              let db5 : DB := { db4 with ctr := ctrMap }
              let db6 : DB := putPodCtrEntry ctrID ctrName podInfo db5
              match addCtrVolDeps ctrID ctr.config.namedVolumes db6.vol with
              | .err e => .err e
              | .fault => .fault
              | .ok volMap => .ok { db6 with vol := volMap }

/-- `addContainer` as observed by callers: the body runs inside `db.Update`,
so any error rolls the store back. -/
def addContainer (sns : String) (ctr : Container) (pod : Option Pod)
    (db : DB) : OpResult :=
  runTx db (addContainerBody sns ctr pod db)

/-! ## Container Mutator — Remove (`removeContainer`, lines 686–856) -/

/-- Lines 720–735 of `removeContainer`: if a pod was given, look up its
sub-bucket under `pod`. -/
def rmPodLookup (pod : Option Pod) (db : DB) :
    Except Err (Option (Pod × PodBkt)) :=
  match pod with
  | none => .ok none
  | some p =>
    match alGet db.pod p.config.id with
    | none => .error (Err.rmNoSuchPod p.config.id)
    | some podDB => .ok (some (p, podDB))

/-- Lines 744–753 of `removeContainer`: the namespace guard, comparing the
store's namespace against the in-memory container (and pod) configs. -/
def rmNSGuard (sns : String) (ctr : Container)
    (podInfo : Option (Pod × PodBkt)) : Option Err :=
  if sns = "" then none
  else if sns ≠ ctr.config.ns then
    some (Err.rmCtrNSMismatch ctr.config.id ctr.config.ns sns)
  else
    match podInfo with
    | some (p, _) =>
      if sns ≠ p.config.ns then
        some (Err.rmPodNSMismatch p.config.id p.config.ns sns)
      else none
    | none => none

/-- Lines 755–770 of `removeContainer`: if a pod was given, remove the
container from the pod's `containers` sub-bucket (the step updates the
`pod` top-level bucket and touches nothing else); a missing `containers`
sub-bucket is logged (malformed pod) and removal proceeds. -/
def rmPodCtrsStep (ctrID : String) (podInfo : Option (Pod × PodBkt))
    (podMap : List (String × PodBkt)) :
    Except Err (List (String × PodBkt)) :=
  match podInfo with
  | none => .ok podMap
  | some (p, podDB) =>
    match podDB.containers with
    | none => .ok podMap
    | some podCtrs =>
      match alGet podCtrs ctrID with
      | none => .error (Err.rmCtrNotInPod ctrID p.config.id)
      | some _ =>
        let podDB2 : PodBkt :=
          { podDB with containers := some (alDelete podCtrs ctrID) }
        .ok (alPut podMap p.config.id podDB2)

/-- Lines 810–836 of `removeContainer`: delete the container's reverse edge
from each forward dependency's `dependencies` sub-bucket; a missing
dependency container or a missing `dependencies` sub-bucket is logged and
skipped. -/
def rmForwardDeps (ctrID : String) :
    List String → List (String × CtrBkt) → List (String × CtrBkt)
  | [], ctrMap => ctrMap
  | d :: rest, ctrMap =>
    match alGet ctrMap d with
    | none => rmForwardDeps ctrID rest ctrMap
    | some depBkt =>
      match depBkt.dependencies with
      | none => rmForwardDeps ctrID rest ctrMap
      | some l =>
        rmForwardDeps ctrID rest
          (alPut ctrMap d { depBkt with dependencies := some (alDelete l ctrID) })

/-- Lines 838–853 of `removeContainer`: the volume back-reference step.  A
missing volume is skipped; the `vol-dependencies` sub-bucket is accessed
with no `nil` guard (absence is a `fault`); the source then deletes the
entry only when `Get` returned `nil` — i.e. when the entry is absent, so an
existing back-reference is left in place. -/
def rmVolDeps (ctrID : String) :
    List String → List (String × VolBkt) → TxOut (List (String × VolBkt))
  | [], volMap => .ok volMap
  | v :: rest, volMap =>
    match alGet volMap v with
    | none => rmVolDeps ctrID rest volMap
    | some volDB =>
      match volDB.volDependencies with
      | none => .fault
      | some l =>
        if alGet l ctrID = none then
          rmVolDeps ctrID rest
            (alPut volMap v { volDB with volDependencies := some (alDelete l ctrID) })
        else rmVolDeps ctrID rest volMap

/-- The body of `removeContainer` (lines 686–856): pod lookup, container
lookup, namespace guard, pod-membership removal, the reverse-edge inbound
check, the registry and sub-bucket deletions, forward-dependency cleanup,
and the volume back-reference step. -/
def removeContainerBody (sns : String) (ctr : Container) (pod : Option Pod)
    (db : DB) : TxOut DB :=
  let ctrID := ctr.config.id
  let ctrName := ctr.config.name
  match rmPodLookup pod db with
  | .error e => .err e
  | .ok podInfo =>
    match alGet db.ctr ctrID with
    | none => .err (Err.rmNoSuchCtr ctrID)
    | some ctrB =>
      match rmNSGuard sns ctr podInfo with
      | some e => .err e
      | none =>
        match rmPodCtrsStep ctrID podInfo db.pod with
        | .error e => .err e
        | .ok podMap1 =>
          let db1 : DB := { db with pod := podMap1 }
          match ctrB.dependencies with
          | none => .err (Err.rmMissingDepsBucket ctrID)
          | some depsL =>
            let deps := depsL.map Prod.fst
            if deps ≠ [] then .err (Err.rmStillReferenced ctrID deps)
            else
              let db2 : DB := { db1 with
                ctr := alDelete db1.ctr ctrID
                idRegistry := alDelete db1.idRegistry ctrID
                nameRegistry := alDelete db1.nameRegistry ctrName
                nsRegistry := alDelete db1.nsRegistry ctrID
                allCtrs := alDelete db1.allCtrs ctrID }
              let db3 : DB := { db2 with
                ctr := rmForwardDeps ctrID ctr.Dependencies db2.ctr }
              match rmVolDeps ctrID ctr.config.namedVolumes db3.vol with
              | .err e => .err e
              | .fault => .fault
              | .ok volMap => .ok { db3 with vol := volMap }

/-- `removeContainer` as observed by callers: the body runs inside the
caller's write transaction, which rolls back when the body returns an
error. -/
def removeContainer (sns : String) (ctr : Container) (pod : Option Pod)
    (db : DB) : OpResult :=
  runTx db (removeContainerBody sns ctr pod db)

/-! ## Entity Hydration (lines 350–463) -/

/-- The parts of `BoltState` and its collaborators that hydration reads:
`s.namespaceBytes` (`nsBytes`, `nil` when the store is not namespace
scoped), `s.namespace` (`sns`, used in error messages),
`s.runtime.lockManager.RetrieveLock` (`retrieveLock`, `none` on failure),
the map of available OCI runtime handles, and the default handle. -/
structure HydrationEnv where
  nsBytes : Option String
  sns : String
  retrieveLock : Nat → Option Nat
  ociRuntimes : List (String × String)
  defaultOCIRuntime : String

/-- The container object produced by a successful hydration: deserialized
config, retrieved lock, resolved OCI runtime handle, and the `valid` flag. -/
structure HydratedCtr where
  config : ContainerConfig
  lock : Nat
  ociRuntime : String
  valid : Bool
  deriving DecidableEq

/-- The pod object produced by a successful hydration. -/
structure HydratedPod where
  config : PodConfig
  lock : Nat
  valid : Bool
  deriving DecidableEq

/-- The volume object produced by a successful hydration. -/
structure HydratedVol where
  config : VolumeConfig
  lock : Nat
  valid : Bool
  deriving DecidableEq

/-- Lines 363–399 of `getContainerFromDB`: the steps after the namespace
check — read and deserialize `config`, retrieve the lock, and resolve the
OCI runtime handle (empty name selects the default; a legacy absolute path
is reduced to its basename before lookup; an unknown name is an internal
error). -/
def hydrateCtrConfigStep (env : HydrationEnv) (id : String) (ctrB : CtrBkt)
    (db : DB) : Except Err HydratedCtr × DB :=
  match ctrB.config with
  | none => (.error (Err.hydCtrMissingConfig id), db)
  | some blob =>
    match unmarshalCtrConfig blob with
    | none => (.error (Err.hydCtrUnmarshal id), db)
    | some cfg =>
      match env.retrieveLock cfg.lockID with
      | none => (.error (Err.hydCtrLock id), db)
      | some lk =>
        if cfg.ociRuntime = "" then
          (.ok { config := cfg, lock := lk,
                 ociRuntime := env.defaultOCIRuntime, valid := true }, db)
        else
          let runtimeName :=
            if cfg.ociRuntime.startsWith "/" then filepathBase cfg.ociRuntime
            else cfg.ociRuntime
          match alGet env.ociRuntimes runtimeName with
          | none => (.error (Err.hydCtrUnknownOCIRuntime id runtimeName), db)
          | some r =>
            (.ok { config := cfg, lock := lk, ociRuntime := r,
                   valid := true }, db)

/-- `getContainerFromDB` (lines 350–400): look up the container sub-bucket,
check the namespace when the store is namespace scoped, then run the
config/lock/OCI-runtime steps.  The store is threaded through and returned,
every step being a bucket read. -/
def getContainerFromDB (env : HydrationEnv) (id : String) (db : DB) :
    Except Err HydratedCtr × DB :=
  match alGet db.ctr id with
  | none => (.error (Err.hydNoSuchCtr id), db)
  | some ctrB =>
    match env.nsBytes with
    | some nsb =>
      if bytesEqual (some nsb) ctrB.ns then
        hydrateCtrConfigStep env id ctrB db
      else (.error (Err.hydCtrNSMismatch id ctrB.ns env.sns), db)
    | none => hydrateCtrConfigStep env id ctrB db

/-- Lines 415–434 of `getPodFromDB`: the steps after the namespace check —
read and deserialize `config` and retrieve the lock. -/
def hydratePodConfigStep (env : HydrationEnv) (id : String) (podDB : PodBkt)
    (db : DB) : Except Err HydratedPod × DB :=
  match podDB.config with
  | none => (.error (Err.hydPodMissingConfig id), db)
  | some blob =>
    match unmarshalPodConfig blob with
    | none => (.error (Err.hydPodUnmarshal id), db)
    | some cfg =>
      match env.retrieveLock cfg.lockID with
      | none => (.error (Err.hydPodLock id), db)
      | some lk =>
        (.ok { config := cfg, lock := lk, valid := true }, db)

/-- `getPodFromDB` (lines 402–435): look up the pod sub-bucket, check the
namespace when the store is namespace scoped, read and deserialize
`config`, and retrieve the lock. -/
def getPodFromDB (env : HydrationEnv) (id : String) (db : DB) :
    Except Err HydratedPod × DB :=
  match alGet db.pod id with
  | none => (.error (Err.hydNoSuchPod id), db)
  | some podDB =>
    match env.nsBytes with
    | some nsb =>
      if bytesEqual (some nsb) podDB.ns then hydratePodConfigStep env id podDB db
      else (.error (Err.hydPodNSMismatch id podDB.ns env.sns), db)
    | none => hydratePodConfigStep env id podDB db

/-- `getVolumeFromDB` (lines 437–463): look up the volume sub-bucket by
name, read and deserialize `config`, and retrieve the lock.  There is no
namespace check. -/
def getVolumeFromDB (env : HydrationEnv) (name : String) (db : DB) :
    Except Err HydratedVol × DB :=
  match alGet db.vol name with
  | none => (.error (Err.hydNoSuchVolume name), db)
  | some volDB =>
    match volDB.config with
    | none => (.error (Err.hydVolMissingConfig name), db)
    | some blob =>
      match unmarshalVolConfig blob with
      | none => (.error (Err.hydVolUnmarshal name), db)
      | some cfg =>
        match env.retrieveLock cfg.lockID with
        | none => (.error (Err.hydVolLock name), db)
        | some lk =>
          (.ok { config := cfg, lock := lk, valid := true }, db)

/-! ## Runtime Configuration Validator (lines 77–231) -/

/-- A runtime-config field to validate: display name, the runtime's current
value, the bucket key, and the declared default (lines 79–84). -/
structure DbConfigValidation where
  name : String
  runtimeValue : String
  key : String
  defaultValue : String
  deriving DecidableEq

/-- `readOnlyValidateConfig` (lines 204–231): `(false, none)` when the key
is absent; with the key present, `(true, none)` when the stored value is
byte-equal to the runtime value, or when the runtime value is empty, the
default is not, and the stored value equals the default, or when the stored
value is empty, the default is not, and the runtime value equals the
default; otherwise `(true, some e)` with a bad-configuration error naming
the field and both values. -/
def readOnlyValidateConfig (bucket : List (String × String))
    (toCheck : DbConfigValidation) : Bool × Option Err :=
  match alGet bucket toCheck.key with
  | none => (false, none)
  | some dbValue =>
    if toCheck.runtimeValue ≠ dbValue then
      if toCheck.runtimeValue = "" ∧ toCheck.defaultValue ≠ "" ∧
          dbValue = toCheck.defaultValue then
        (true, none)
      else if dbValue = "" ∧ toCheck.defaultValue ≠ "" ∧
          toCheck.runtimeValue = toCheck.defaultValue then
        (true, none)
      else
        (true, some (Err.badConfigMismatch toCheck.name dbValue toCheck.runtimeValue))
    else
      (true, none)

/-- Lines 151–159 of `checkRuntimeConfig`: the read-only pass, collecting
the checks whose keys are missing and aborting on the first validation
error. -/
def checkRuntimeConfigLoop (bucket : List (String × String)) :
    List DbConfigValidation → Except Err (List DbConfigValidation)
  | [] => .ok []
  | c :: rest =>
    match readOnlyValidateConfig bucket c with
    | (_, some e) => .error e
    | (ex, none) =>
      match checkRuntimeConfigLoop bucket rest with
      | .error e => .error e
      | .ok ms => .ok (if ex then ms else c :: ms)

/-- Lines 178–187 of `checkRuntimeConfig`: the write pass, storing for each
missing field the runtime value, or the default when the runtime value is
empty and the default is not. -/
def writeMissing (bucket : List (String × String)) :
    List DbConfigValidation → List (String × String)
  | [] => bucket
  | m :: rest =>
    let dbValue :=
      if m.runtimeValue = "" ∧ m.defaultValue ≠ "" then m.defaultValue
      else m.runtimeValue
    writeMissing (alPut bucket m.key dbValue) rest

/-- `checkRuntimeConfig` (lines 89–191), generic over the list of field
checks that the source assembles from the runtime configuration and the
storage defaults: a read transaction validates every present field and
collects the missing ones; when nothing is missing the store is returned
untouched, otherwise a write transaction populates the missing fields. -/
def checkRuntimeConfig (checks : List DbConfigValidation) (db : DB) :
    OpResult :=
  match checkRuntimeConfigLoop db.runtimeConfig checks with
  | .error e => .err e db
  | .ok missingFields =>
    if missingFields.isEmpty then .ok db
    else .ok { db with runtimeConfig := writeMissing db.runtimeConfig missingFields }

/-- Lines 96–139: the concrete list of checks for a runtime with the given
GOOS value, configuration paths, and storage defaults (field `so`):
`os`, `static-dir`, `tmp-dir`, `run-root`, `graph-root`,
`graph-driver-name`, `volume-path`. -/
def runtimeConfigChecks (goos staticDir tmpDir runRoot graphRoot
    graphDriver volumePath soRunRoot soGraphRoot soGraphDriver : String) :
    List DbConfigValidation :=
  [ { name := "OS", runtimeValue := goos, key := "os", defaultValue := goos },
    { name := "libpod root directory (staticdir)", runtimeValue := staticDir,
      key := "static-dir", defaultValue := "" },
    { name := "libpod temporary files directory (tmpdir)",
      runtimeValue := tmpDir, key := "tmp-dir", defaultValue := "" },
    { name := "storage temporary directory (runroot)", runtimeValue := runRoot,
      key := "run-root", defaultValue := soRunRoot },
    { name := "storage graph root directory (graphroot)",
      runtimeValue := graphRoot, key := "graph-root", defaultValue := soGraphRoot },
    { name := "storage graph driver", runtimeValue := graphDriver,
      key := "graph-driver-name", defaultValue := soGraphDriver },
    { name := "volume path", runtimeValue := volumePath,
      key := "volume-path", defaultValue := "" } ]

/-! ## Concrete store instances used in the scenario theorems -/

/-- Container `c1` referencing named volume `v1` (no dependencies, no
namespace). -/
def c1Ctr : Container :=
  { config := { id := "c1", name := "ctr1", ns := "", lockID := 0,
                ociRuntime := "", dependencies := [], namedVolumes := ["v1"] },
    stateBlob := "", netNSPath := "" }

/-- The stored sub-bucket of `c1`. -/
def c1CtrBkt : CtrBkt :=
  { config := some (Blob.ctrConfig c1Ctr.config), state := some (Blob.raw ""),
    ns := none, podID := none, netns := none, dependencies := some [] }

/-- Volume `v1` whose `vol-dependencies` records the back-reference to
`c1`. -/
def c1VolBkt : VolBkt :=
  { config := some (Blob.volConfig { name := "v1", lockID := 1 }),
    state := none, volDependencies := some [("c1", "c1")] }

/-- A store holding container `c1` and volume `v1` with the back-reference
in place. -/
def c1Db : DB :=
  { emptyDB with
    idRegistry := [("c1", "ctr1"), ("v1", "v1")]
    nameRegistry := [("ctr1", "c1"), ("v1", "v1")]
    ctr := [("c1", c1CtrBkt)]
    allCtrs := [("c1", "ctr1")]
    vol := [("v1", c1VolBkt)]
    allVols := [("v1", "v1")] }

/-- The store left behind by `removeContainer` on `c1Db`: the container is
gone from every bucket, but `v1` still carries the `c1` back-reference. -/
def c1DbAfter : DB :=
  { emptyDB with
    idRegistry := [("v1", "v1")]
    nameRegistry := [("v1", "v1")]
    vol := [("v1", c1VolBkt)]
    allVols := [("v1", "v1")] }

/-- Container `a1`, depended on by container `b1`. -/
def c2Ctr : Container :=
  { config := { id := "a1", name := "ctrA", ns := "", lockID := 0,
                ociRuntime := "", dependencies := [], namedVolumes := [] },
    stateBlob := "", netNSPath := "" }

/-- The stored sub-bucket of `a1`: its `dependencies` sub-bucket holds the
reverse edge from `b1`. -/
def c2CtrBkt : CtrBkt :=
  { config := some (Blob.ctrConfig c2Ctr.config), state := some (Blob.raw ""),
    ns := none, podID := none, netns := none,
    dependencies := some [("b1", "ctrB")] }

/-- A store holding `a1` (with inbound dependent `b1`). -/
def c2Db : DB :=
  { emptyDB with
    idRegistry := [("a1", "ctrA")]
    nameRegistry := [("ctrA", "a1")]
    ctr := [("a1", c2CtrBkt)]
    allCtrs := [("a1", "ctrA")] }

/-- A container whose ID is already registered in `c3Db`. -/
def c3Ctr : Container :=
  { config := { id := "c1", name := "ctrC", ns := "", lockID := 0,
                ociRuntime := "", dependencies := [], namedVolumes := [] },
    stateBlob := "", netNSPath := "" }

/-- A store whose `id-registry` already holds `c1` (say, as a pod ID). -/
def c3Db : DB :=
  { emptyDB with
    idRegistry := [("c1", "web")]
    nameRegistry := [("web", "c1")] }

/-- A dependency container sub-bucket recording membership in pod `p9`. -/
def c4DepBkt : CtrBkt :=
  { config := none, state := none, ns := none, podID := some "p9",
    netns := none, dependencies := some [] }

/-- A `ctr` bucket holding only the dependency `d1`. -/
def c4CtrMap : List (String × CtrBkt) := [("d1", c4DepBkt)]

/-- Container `c1` in namespace `ns1` declaring a dependency on `d1`. -/
def c5Ctr : Container :=
  { config := { id := "c1", name := "ctrC", ns := "ns1", lockID := 0,
                ociRuntime := "", dependencies := ["d1"], namedVolumes := [] },
    stateBlob := "", netNSPath := "" }

/-- The stored sub-bucket of dependency `d1`, in namespace `ns2`, not in any
pod. -/
def c5DepBkt : CtrBkt :=
  { config := none, state := none, ns := some "ns2", podID := none,
    netns := none, dependencies := some [] }

/-- A store holding the dependency `d1` only. -/
def c5Db : DB :=
  { emptyDB with
    idRegistry := [("d1", "ctrD")]
    nameRegistry := [("ctrD", "d1")]
    ctr := [("d1", c5DepBkt)]
    allCtrs := [("d1", "ctrD")] }

/-- A `runtime-config` bucket that stored `graph-driver-name = overlay`. -/
def c6Bucket : List (String × String) := [("graph-driver-name", "overlay")]

/-- The graph-driver check of a runtime now configured with `vfs` (default
`overlay`). -/
def c6Check : DbConfigValidation :=
  { name := "storage graph driver", runtimeValue := "vfs",
    key := "graph-driver-name", defaultValue := "overlay" }

/-- A concrete check list: a runtime on `linux` passing empty storage paths
(defaults `overlay` et al.). -/
def c7Checks : List DbConfigValidation :=
  runtimeConfigChecks "linux" "/var/lib/libpod" "/run/libpod" "" "" ""
    "/var/lib/volumes" "/run/containers/storage"
    "/var/lib/containers/storage" "overlay"

/-- The graph-driver element of `c7Checks`. -/
def c7GraphDriverCheck : DbConfigValidation :=
  { name := "storage graph driver", runtimeValue := "",
    key := "graph-driver-name", defaultValue := "overlay" }

/-- A namespace-scoped hydration environment (namespace `ns1`). -/
def c9Env : HydrationEnv :=
  { nsBytes := some "ns1", sns := "ns1", retrieveLock := fun _ => some 7,
    ociRuntimes := [], defaultOCIRuntime := "runc" }

/-- The stored config of the container in namespace `ns2`. -/
def c9CtrCfg : ContainerConfig :=
  { id := "c1", name := "ctrC", ns := "ns2", lockID := 3, ociRuntime := "",
    dependencies := [], namedVolumes := [] }

/-- A stored container sub-bucket in namespace `ns2`. -/
def c9CtrBkt : CtrBkt :=
  { config := some (Blob.ctrConfig c9CtrCfg),
    state := none, ns := some "ns2", podID := none, netns := none,
    dependencies := some [] }

/-- A stored volume sub-bucket for `v1`. -/
def c9VolBkt : VolBkt :=
  { config := some (Blob.volConfig { name := "v1", lockID := 3 }),
    state := none, volDependencies := some [] }

/-- A store holding container `c1` (namespace `ns2`) and volume `v1`. -/
def c9Db : DB :=
  { emptyDB with ctr := [("c1", c9CtrBkt)], vol := [("v1", c9VolBkt)] }

/-- Container `c1` referencing volume `v1`, used for the `nil`-guard
scenarios. -/
def c10Ctr : Container :=
  { config := { id := "c1", name := "ctrC", ns := "", lockID := 0,
                ociRuntime := "", dependencies := [], namedVolumes := ["v1"] },
    stateBlob := "", netNSPath := "" }

/-- A malformed stored volume sub-bucket: no `vol-dependencies`
sub-bucket. -/
def c10VolBkt : VolBkt :=
  { config := some (Blob.volConfig { name := "v1", lockID := 2 }),
    state := none, volDependencies := none }

/-- A store with the malformed volume, ready for `addContainer c1`. -/
def c10AddDb : DB :=
  { emptyDB with vol := [("v1", c10VolBkt)], allVols := [("v1", "v1")] }

/-- The stored sub-bucket of `c1` (no inbound dependents). -/
def c10CtrBkt : CtrBkt :=
  { config := some (Blob.ctrConfig c10Ctr.config), state := some (Blob.raw ""),
    ns := none, podID := none, netns := none, dependencies := some [] }

/-- A store with container `c1` present and the malformed volume, ready for
`removeContainer c1`. -/
def c10RmDb : DB :=
  { emptyDB with
    idRegistry := [("c1", "ctrC")]
    nameRegistry := [("ctrC", "c1")]
    ctr := [("c1", c10CtrBkt)]
    allCtrs := [("c1", "ctrC")]
    vol := [("v1", c10VolBkt)]
    allVols := [("v1", "v1")] }

/-! ## Association-list and transaction lemmas -/

theorem alGet_alPut_self {α : Type} (l : List (String × α)) (k : String)
    (v : α) : alGet (alPut l k v) k = some v := by
  induction l with
  | nil => simp [alPut, alGet]
  | cons hd tl ih =>
    obtain ⟨k0, v0⟩ := hd
    by_cases h : k0 = k
    · subst h; simp [alPut, alGet]
    · simp [alPut, alGet, h, ih]

theorem alGet_alPut_ne {α : Type} (l : List (String × α)) (k k2 : String)
    (v : α) (h : k ≠ k2) : alGet (alPut l k v) k2 = alGet l k2 := by
  induction l with
  | nil => simp [alPut, alGet, h]
  | cons hd tl ih =>
    obtain ⟨k0, v0⟩ := hd
    by_cases h0 : k0 = k
    · subst h0; simp [alPut, alGet, h]
    · simp only [alPut, if_neg h0]
      by_cases h2 : k0 = k2
      · simp [alGet, h2]
      · simp [alGet, h2, ih]

theorem alGet_mem {α : Type} {l : List (String × α)} {k : String} {v : α}
    (h : alGet l k = some v) : (k, v) ∈ l := by
  induction l with
  | nil => simp [alGet] at h
  | cons hd tl ih =>
    obtain ⟨k0, v0⟩ := hd
    by_cases hk : k0 = k
    · subst hk
      simp [alGet] at h
      subst h; exact List.mem_cons_self _ _
    · simp only [alGet, if_neg hk] at h
      exact List.mem_cons_of_mem _ (ih h)

theorem mem_alPut {α : Type} {l : List (String × α)} {k : String} {v : α}
    {e : String × α} (h : e ∈ alPut l k v) : e ∈ l ∨ e = (k, v) := by
  induction l with
  | nil => simp [alPut] at h; right; exact h
  | cons hd tl ih =>
    obtain ⟨k0, v0⟩ := hd
    by_cases h0 : k0 = k
    · subst h0
      simp only [alPut, if_pos rfl] at h
      rcases List.mem_cons.mp h with h1 | h1
      · right; rw [h1]
      · left; exact List.mem_cons_of_mem _ h1
    · simp only [alPut, if_neg h0] at h
      rcases List.mem_cons.mp h with h1 | h1
      · left; rw [h1]; exact List.mem_cons_self _ _
      · rcases ih h1 with h2 | h2
        · left; exact List.mem_cons_of_mem _ h2
        · right; exact h2

@[simp]
theorem putNSRegistry_idRegistry (i : String) (nso : Option String) (db : DB) :
    (putNSRegistry i nso db).idRegistry = db.idRegistry := by
  cases nso <;> rfl

@[simp]
theorem putNSRegistry_nameRegistry (i : String) (nso : Option String)
    (db : DB) : (putNSRegistry i nso db).nameRegistry = db.nameRegistry := by
  cases nso <;> rfl

@[simp]
theorem putNSRegistry_vol (i : String) (nso : Option String) (db : DB) :
    (putNSRegistry i nso db).vol = db.vol := by
  cases nso <;> rfl

@[simp]
theorem putNSRegistry_ctr (i : String) (nso : Option String) (db : DB) :
    (putNSRegistry i nso db).ctr = db.ctr := by
  cases nso <;> rfl

@[simp]
theorem putPodCtrEntry_idRegistry (i n : String)
    (podInfo : Option (Pod × PodBkt × List (String × String))) (db : DB) :
    (putPodCtrEntry i n podInfo db).idRegistry = db.idRegistry := by
  cases podInfo with
  | none => rfl
  | some x => obtain ⟨p, podDB, podCtrs⟩ := x; rfl

@[simp]
theorem putPodCtrEntry_vol (i n : String)
    (podInfo : Option (Pod × PodBkt × List (String × String))) (db : DB) :
    (putPodCtrEntry i n podInfo db).vol = db.vol := by
  cases podInfo with
  | none => rfl
  | some x => obtain ⟨p, podDB, podCtrs⟩ := x; rfl

theorem runTx_eq_ok {db dbOut : DB} {t : TxOut DB}
    (h : runTx db t = OpResult.ok dbOut) : t = TxOut.ok dbOut := by
  cases t <;> simp_all [runTx]

theorem runTx_eq_fault {db : DB} {t : TxOut DB} :
    runTx db t = OpResult.fault ↔ t = TxOut.fault := by
  cases t <;> simp [runTx]

/-! ## Claim theorems -/

/-- Claim C1 (code bug witness): on a store where volume `v1` records the
back-reference of container `c1`, `removeContainer` succeeds but leaves the
`c1` entry in `v1`'s `vol-dependencies` sub-bucket, because the source
guards the delete on the entry being absent (`depExists == nil`) instead of
present. -/
theorem c1_remove_keeps_volume_backreference :
    removeContainer "" c1Ctr none c1Db = OpResult.ok c1DbAfter ∧
    c1Ctr.config.namedVolumes = ["v1"] ∧
    alGet c1DbAfter.vol "v1" = some c1VolBkt ∧
    c1VolBkt.volDependencies = some [("c1", "c1")] :=
  ⟨by decide, rfl, rfl, rfl⟩

/-- Claim C2: when container `A` has a non-empty `dependencies` sub-bucket
(inbound reverse edges), `removeContainer` reaching the inbound check fails
with the still-referenced error (wrapping `define.ErrCtrExists` in the
source) that lists the dependent container IDs, and — the transaction being
rolled back — the observable store is exactly the input store, so no entry
for `A` is removed from `ctr`, the registries, `all-ctrs`, or any pod's
`containers` sub-bucket. -/
theorem c2_remove_still_referenced (sns : String) (ctr : Container)
    (pod : Option Pod) (db : DB) (podInfo : Option (Pod × PodBkt))
    (podMap1 : List (String × PodBkt))
    (ctrB : CtrBkt) (depsL : List (String × String))
    (hpod : rmPodLookup pod db = .ok podInfo)
    (hctr : alGet db.ctr ctr.config.id = some ctrB)
    (hns : rmNSGuard sns ctr podInfo = none)
    (hpc : rmPodCtrsStep ctr.config.id podInfo db.pod = .ok podMap1)
    (hdeps : ctrB.dependencies = some depsL)
    (hne : depsL ≠ []) :
    removeContainer sns ctr pod db =
      OpResult.err (Err.rmStillReferenced ctr.config.id (depsL.map Prod.fst)) db ∧
    (Err.rmStillReferenced ctr.config.id (depsL.map Prod.fst)).defineKind =
      DefineErr.errCtrExists := by
  have hmap : depsL.map Prod.fst ≠ [] := fun hm => hne (List.map_eq_nil_iff.mp hm)
  constructor
  · unfold removeContainer
    simp only [removeContainerBody, hpod, hctr, hns, hpc, hdeps]
    rw [if_pos hmap]
    rfl
  · rfl

/-- Witness for C2: the scenario store `c2Db`, where `b1` depends on
`a1`. -/
theorem c2_remove_still_referenced_witness :
    removeContainer "" c2Ctr none c2Db =
      OpResult.err (Err.rmStillReferenced "a1" ["b1"]) c2Db ∧
    (Err.rmStillReferenced "a1" ["b1"]).defineKind = DefineErr.errCtrExists :=
  c2_remove_still_referenced "" c2Ctr none c2Db none [] c2CtrBkt
    [("b1", "ctrB")] rfl rfl rfl rfl rfl (by decide)

theorem hydrateCtrConfigStep_snd (env : HydrationEnv) (id : String)
    (ctrB : CtrBkt) (db : DB) : (hydrateCtrConfigStep env id ctrB db).2 = db := by
  unfold hydrateCtrConfigStep
  repeat first | rfl | split | dsimp only

theorem hydratePodConfigStep_snd (env : HydrationEnv) (id : String)
    (podDB : PodBkt) (db : DB) : (hydratePodConfigStep env id podDB db).2 = db := by
  unfold hydratePodConfigStep
  repeat first | rfl | split

/-- Claim C8: hydration never mutates the store — for every entity ID or
volume name, every store state, and every environment (so on every success
and every failure path), the store coming out of `getContainerFromDB`,
`getPodFromDB`, and `getVolumeFromDB` is the store that went in. -/
theorem c8_hydration_never_mutates (env : HydrationEnv) (id : String)
    (db : DB) :
    (getContainerFromDB env id db).2 = db ∧
    (getPodFromDB env id db).2 = db ∧
    (getVolumeFromDB env id db).2 = db := by
  refine ⟨?_, ?_, ?_⟩
  · unfold getContainerFromDB
    repeat first
      | rfl
      | exact hydrateCtrConfigStep_snd _ _ _ _
      | split
  · unfold getPodFromDB
    repeat first
      | rfl
      | exact hydratePodConfigStep_snd _ _ _ _
      | split
  · unfold getVolumeFromDB
    repeat first | rfl | split

/-- Claim C9: `getVolumeFromDB` performs no namespace check — its result is
identical under any two store namespaces and its errors are never of the
namespace-mismatch kind — unlike `getContainerFromDB` and `getPodFromDB`,
which reject an entity whose stored namespace differs from a
namespace-scoped store's. -/
theorem c9_volume_hydration_ignores_namespace :
    (∀ (env : HydrationEnv) (nsb1 nsb2 : Option String) (sns1 sns2 name : String)
       (db : DB),
       (getVolumeFromDB { env with nsBytes := nsb1, sns := sns1 } name db).1 =
       (getVolumeFromDB { env with nsBytes := nsb2, sns := sns2 } name db).1) ∧
    (∀ (env : HydrationEnv) (name : String) (db : DB) (e : Err),
       (getVolumeFromDB env name db).1 = .error e →
       e.defineKind ≠ DefineErr.errNSMismatch) ∧
    (∀ (env : HydrationEnv) (id : String) (db : DB) (bkt : CtrBkt)
       (nsb : String),
       env.nsBytes = some nsb → alGet db.ctr id = some bkt →
       bytesEqual (some nsb) bkt.ns = false →
       (getContainerFromDB env id db).1 =
         .error (Err.hydCtrNSMismatch id bkt.ns env.sns)) ∧
    (∀ (env : HydrationEnv) (id : String) (db : DB) (bkt : PodBkt)
       (nsb : String),
       env.nsBytes = some nsb → alGet db.pod id = some bkt →
       bytesEqual (some nsb) bkt.ns = false →
       (getPodFromDB env id db).1 =
         .error (Err.hydPodNSMismatch id bkt.ns env.sns)) := by
  refine ⟨?_, ?_, ?_, ?_⟩
  · intro env nsb1 nsb2 sns1 sns2 name db
    rfl
  · intro env name db e h
    unfold getVolumeFromDB at h
    repeat' split at h
    all_goals simp at h
    all_goals subst h
    all_goals simp [Err.defineKind]
  · intro env id db bkt nsb h1 h2 h3
    simp only [getContainerFromDB, h1, h2, h3]
    rfl
  · intro env id db bkt nsb h1 h2 h3
    simp only [getPodFromDB, h1, h2, h3]
    rfl

/-- Witness for C9: volume `v1` of `c9Db` hydrates identically with and
without a store namespace, while container `c1` (namespace `ns2`) is
rejected by the `ns1`-scoped store. -/
theorem c9_volume_hydration_ignores_namespace_witness :
    (getVolumeFromDB { c9Env with nsBytes := some "ns1", sns := "ns1" } "v1" c9Db).1 =
      (getVolumeFromDB { c9Env with nsBytes := none, sns := "" } "v1" c9Db).1 ∧
    (getContainerFromDB c9Env "c1" c9Db).1 =
      Except.error (Err.hydCtrNSMismatch "c1" (some "ns2") "ns1") := by
  constructor
  · exact c9_volume_hydration_ignores_namespace.1 c9Env (some "ns1") none
      "ns1" "" "v1" c9Db
  · have h := c9_volume_hydration_ignores_namespace.2.2.1 c9Env "c1" c9Db
      c9CtrBkt "ns1" rfl rfl (by decide)
    simpa using h

theorem addDepPodCheck_eq_none_iff (ctrID d : String)
    (podIDOpt dp : Option String) :
    addDepPodCheck ctrID d podIDOpt dp = none ↔ dp = podIDOpt := by
  cases podIDOpt with
  | none => cases dp <;> simp [addDepPodCheck]
  | some pid =>
    cases dp with
    | none => simp [addDepPodCheck]
    | some dpid => by_cases h : dpid = pid <;> simp [addDepPodCheck, h]

theorem addCtrDeps_ok_podID {ctrID ctrName : String}
    {ctrNamespace : Option String} {ctrNS : String} {podIDOpt : Option String}
    {deps : List String} {m mOut : List (String × CtrBkt)}
    (h : addCtrDeps ctrID ctrName ctrNamespace ctrNS podIDOpt deps m = .ok mOut) :
    ∀ k, (alGet mOut k).map CtrBkt.podID = (alGet m k).map CtrBkt.podID := by
  induction deps generalizing m with
  | nil =>
    simp only [addCtrDeps, TxOut.ok.injEq] at h
    subst h; intro k; rfl
  | cons d rest ih =>
    simp only [addCtrDeps] at h
    split at h
    · exact absurd h (by simp)
    · rename_i depBkt hdep
      split at h
      · exact absurd h (by simp)
      · split at h
        · split at h
          · exact absurd h (by simp)
          · rename_i l hl
            intro k
            rw [ih h k]
            by_cases hk : k = d
            · subst hk
              rw [alGet_alPut_self, hdep]
              rfl
            · rw [alGet_alPut_ne _ _ _ _ (Ne.symm hk)]
        · exact absurd h (by simp)

theorem addCtrDeps_ok_mem {ctrID ctrName : String}
    {ctrNamespace : Option String} {ctrNS : String} {podIDOpt : Option String}
    {deps : List String} {m mOut : List (String × CtrBkt)}
    (h : addCtrDeps ctrID ctrName ctrNamespace ctrNS podIDOpt deps m = .ok mOut) :
    ∀ d ∈ deps, ∃ bkt, alGet mOut d = some bkt ∧ bkt.podID = podIDOpt := by
  induction deps generalizing m with
  | nil => intro d hd; simp at hd
  | cons d0 rest ih =>
    simp only [addCtrDeps] at h
    split at h
    · exact absurd h (by simp)
    · rename_i depBkt hdep
      split at h
      · exact absurd h (by simp)
      · rename_i hpc
        split at h
        · split at h
          · exact absurd h (by simp)
          · rename_i l hl
            intro d hd
            rcases List.mem_cons.mp hd with rfl | hmem
            · have hpres := addCtrDeps_ok_podID h d
              rw [alGet_alPut_self] at hpres
              cases hout : alGet mOut d with
              | none => rw [hout] at hpres; simp at hpres
              | some bkt3 =>
                rw [hout] at hpres
                refine ⟨bkt3, rfl, ?_⟩
                have h3 : bkt3.podID = depBkt.podID := by simpa using hpres
                rw [h3]
                exact (addDepPodCheck_eq_none_iff ctrID d podIDOpt depBkt.podID).mp hpc
            · exact ih h d hmem
        · exact absurd h (by simp)

/-- Claim C4: in the dependency step of `addContainer`, a dependency whose
sub-bucket stores no `pod-id` while a pod was supplied, or stores a
different pod's ID, or stores any `pod-id` while no pod was supplied, fails
the add with an error wrapping `define.ErrInvalidArg`; and on every
successful run each declared dependency exists and stores exactly the
supplied pod's ID (`none` when no pod was supplied). -/
theorem c4_add_dependency_pod_coherence :
    (∀ (ctrID ctrName ctrNS pid d : String) (ctrNamespace : Option String)
       (rest : List String) (m : List (String × CtrBkt)) (bkt : CtrBkt),
       alGet m d = some bkt → bkt.podID = none →
       addCtrDeps ctrID ctrName ctrNamespace ctrNS (some pid) (d :: rest) m =
         .err (Err.addDepNotInPod ctrID d pid) ∧
       (Err.addDepNotInPod ctrID d pid).defineKind = DefineErr.errInvalidArg) ∧
    (∀ (ctrID ctrName ctrNS pid d dpid : String) (ctrNamespace : Option String)
       (rest : List String) (m : List (String × CtrBkt)) (bkt : CtrBkt),
       alGet m d = some bkt → bkt.podID = some dpid → dpid ≠ pid →
       addCtrDeps ctrID ctrName ctrNamespace ctrNS (some pid) (d :: rest) m =
         .err (Err.addDepDifferentPod ctrID d dpid) ∧
       (Err.addDepDifferentPod ctrID d dpid).defineKind = DefineErr.errInvalidArg) ∧
    (∀ (ctrID ctrName ctrNS d dpid : String) (ctrNamespace : Option String)
       (rest : List String) (m : List (String × CtrBkt)) (bkt : CtrBkt),
       alGet m d = some bkt → bkt.podID = some dpid →
       addCtrDeps ctrID ctrName ctrNamespace ctrNS none (d :: rest) m =
         .err (Err.addDepInPod ctrID d) ∧
       (Err.addDepInPod ctrID d).defineKind = DefineErr.errInvalidArg) ∧
    (∀ (ctrID ctrName ctrNS : String) (ctrNamespace : Option String)
       (podIDOpt : Option String) (deps : List String)
       (m mOut : List (String × CtrBkt)),
       addCtrDeps ctrID ctrName ctrNamespace ctrNS podIDOpt deps m = .ok mOut →
       ∀ d ∈ deps, ∃ bkt, alGet mOut d = some bkt ∧ bkt.podID = podIDOpt) := by
  refine ⟨?_, ?_, ?_, ?_⟩
  · intro ctrID ctrName ctrNS pid d ctrNamespace rest m bkt hd hp
    exact ⟨by simp [addCtrDeps, hd, hp, addDepPodCheck], rfl⟩
  · intro ctrID ctrName ctrNS pid d dpid ctrNamespace rest m bkt hd hp hne
    exact ⟨by simp [addCtrDeps, hd, hp, addDepPodCheck, hne], rfl⟩
  · intro ctrID ctrName ctrNS d dpid ctrNamespace rest m bkt hd hp
    exact ⟨by simp [addCtrDeps, hd, hp, addDepPodCheck], rfl⟩
  · intro ctrID ctrName ctrNS ctrNamespace podIDOpt deps m mOut h
    exact addCtrDeps_ok_mem h

/-- Witness for C4: adding podless container `c1` with a dependency on
`d1`, which is in pod `p9`, fails with the invalid-argument kind. -/
theorem c4_add_dependency_pod_coherence_witness :
    addCtrDeps "c1" "ctrC" none "" none ["d1"] c4CtrMap =
      .err (Err.addDepInPod "c1" "d1") ∧
    (Err.addDepInPod "c1" "d1").defineKind = DefineErr.errInvalidArg :=
  c4_add_dependency_pod_coherence.2.2.1 "c1" "ctrC" "" "d1" "p9" none []
    c4CtrMap c4DepBkt rfl rfl

/-- Claim C5, counterexample to the stated error kind: on the concrete
store `c5Db`, adding `c1` (namespace `ns1`) with a dependency on `d1`
(namespace `ns2`) fails with an error wrapping `define.ErrNSMismatch` — not
`define.ErrInvalidArg` as the claim states. -/
theorem c5_dep_ns_violation_not_invalid_arg :
    addContainer "" c5Ctr none c5Db =
      OpResult.err (Err.addDepNSMismatch "c1" "ns1" "d1" (some "ns2")) c5Db ∧
    (Err.addDepNSMismatch "c1" "ns1" "d1" (some "ns2")).defineKind ≠
      DefineErr.errInvalidArg :=
  ⟨rfl, by decide⟩

/-- Claim C5 as amended: in the dependency step of `addContainer`, a
dependency that passes the pod-coherence check but whose stored namespace
key differs from the namespace of the container being added fails the add
with the namespace-mismatch error kind (`define.ErrNSMismatch`). -/
theorem c5_add_dependency_ns_mismatch_kind (ctrID ctrName ctrNS d : String)
    (ctrNamespace podIDOpt : Option String) (rest : List String)
    (m : List (String × CtrBkt)) (bkt : CtrBkt)
    (hd : alGet m d = some bkt) (hpodc : bkt.podID = podIDOpt)
    (hns : bytesEqual ctrNamespace bkt.ns = false) :
    addCtrDeps ctrID ctrName ctrNamespace ctrNS podIDOpt (d :: rest) m =
      .err (Err.addDepNSMismatch ctrID ctrNS d bkt.ns) ∧
    (Err.addDepNSMismatch ctrID ctrNS d bkt.ns).defineKind =
      DefineErr.errNSMismatch := by
  have hpc : addDepPodCheck ctrID d podIDOpt bkt.podID = none :=
    (addDepPodCheck_eq_none_iff ctrID d podIDOpt bkt.podID).mpr hpodc
  exact ⟨by simp [addCtrDeps, hd, hpc, hns], rfl⟩

/-- Witness for C5 (amended): dependency `d1` in namespace `ns2` against a
container in namespace `ns1`. -/
theorem c5_add_dependency_ns_mismatch_kind_witness :
    addCtrDeps "c1" "ctrC" (some "ns1") "ns1" none ["d1"] [("d1", c5DepBkt)] =
      .err (Err.addDepNSMismatch "c1" "ns1" "d1" (some "ns2")) ∧
    (Err.addDepNSMismatch "c1" "ns1" "d1" (some "ns2")).defineKind =
      DefineErr.errNSMismatch :=
  c5_add_dependency_ns_mismatch_kind "c1" "ctrC" "ns1" "d1" (some "ns1")
    none [] [("d1", c5DepBkt)] c5DepBkt rfl rfl (by decide)

theorem addContainerBody_ok_facts {sns : String} {ctr : Container}
    {pod : Option Pod} {db dbOut : DB}
    (h : addContainerBody sns ctr pod db = .ok dbOut) :
    ¬(sns ≠ "" ∧ sns ≠ ctr.config.ns) ∧
    alGet dbOut.idRegistry ctr.config.id = some ctr.config.name := by
  unfold addContainerBody at h
  by_cases h0 : sns ≠ "" ∧ sns ≠ ctr.config.ns
  · rw [if_pos h0] at h
    exact absurd h (by simp)
  · rw [if_neg h0] at h
    simp only [putNSRegistry_ctr, putNSRegistry_idRegistry,
      putNSRegistry_nameRegistry, putNSRegistry_vol, putPodCtrEntry_idRegistry,
      putPodCtrEntry_vol] at h
    refine ⟨h0, ?_⟩
    repeat' split at h
    all_goals try exact TxOut.noConfusion h
    all_goals injection h with h
    all_goals subst h
    all_goals simp [alGet_alPut_self]

/-- Claim C3: `addContainer` fails with an error wrapping
`define.ErrCtrExists` (already-exists) whenever the container's ID is
already registered in `id-registry` or its name in `name-registry`, the
transaction rollback leaving the store byte-identical; in particular a
second add of the same container after a successful first add fails that
way and preserves exactly the post-first-add store. -/
theorem c3_add_duplicate_fails :
    (∀ (sns : String) (ctr : Container) (pod : Option Pod) (db : DB)
       (podInfo : Option (Pod × PodBkt × List (String × String))) (x : String),
       ¬(sns ≠ "" ∧ sns ≠ ctr.config.ns) →
       addPodLookup pod (ctrNamespaceOpt ctr) ctr.config.id ctr.config.ns db =
         .ok podInfo →
       alGet db.idRegistry ctr.config.id = some x →
       addContainer sns ctr pod db =
         OpResult.err (Err.addIDExists ctr.config.id) db ∧
       (Err.addIDExists ctr.config.id).defineKind = DefineErr.errCtrExists) ∧
    (∀ (sns : String) (ctr : Container) (pod : Option Pod) (db : DB)
       (podInfo : Option (Pod × PodBkt × List (String × String))) (x : String),
       ¬(sns ≠ "" ∧ sns ≠ ctr.config.ns) →
       addPodLookup pod (ctrNamespaceOpt ctr) ctr.config.id ctr.config.ns db =
         .ok podInfo →
       alGet db.idRegistry ctr.config.id = none →
       alGet db.nameRegistry ctr.config.name = some x →
       addContainer sns ctr pod db =
         OpResult.err (Err.addNameExists ctr.config.name) db ∧
       (Err.addNameExists ctr.config.name).defineKind = DefineErr.errCtrExists) ∧
    (∀ (sns : String) (ctr : Container) (db dbOut : DB),
       addContainer sns ctr none db = OpResult.ok dbOut →
       addContainer sns ctr none dbOut =
         OpResult.err (Err.addIDExists ctr.config.id) dbOut ∧
       (Err.addIDExists ctr.config.id).defineKind = DefineErr.errCtrExists) := by
  have part1 : ∀ (sns : String) (ctr : Container) (pod : Option Pod) (db : DB)
      (podInfo : Option (Pod × PodBkt × List (String × String))) (x : String),
      ¬(sns ≠ "" ∧ sns ≠ ctr.config.ns) →
      addPodLookup pod (ctrNamespaceOpt ctr) ctr.config.id ctr.config.ns db =
        .ok podInfo →
      alGet db.idRegistry ctr.config.id = some x →
      addContainer sns ctr pod db =
        OpResult.err (Err.addIDExists ctr.config.id) db ∧
      (Err.addIDExists ctr.config.id).defineKind = DefineErr.errCtrExists := by
    intro sns ctr pod db podInfo x h0 hpod hid
    refine ⟨?_, rfl⟩
    unfold addContainer addContainerBody
    rw [if_neg h0]
    simp only [hpod, hid]
    rfl
  refine ⟨part1, ?_, ?_⟩
  · intro sns ctr pod db podInfo x h0 hpod hid hname
    refine ⟨?_, rfl⟩
    unfold addContainer addContainerBody
    rw [if_neg h0]
    simp only [hpod, hid, hname]
    rfl
  · intro sns ctr db dbOut h
    have hb := runTx_eq_ok h
    obtain ⟨h0, hid⟩ := addContainerBody_ok_facts hb
    exact part1 sns ctr none dbOut none ctr.config.name h0 rfl hid

/-- Witness for C3: the ID `c1` is already registered in `c3Db` (as the pod
`web`), so adding container `c1` fails with the already-exists kind and the
store is unchanged. -/
theorem c3_add_duplicate_fails_witness :
    addContainer "" c3Ctr none c3Db =
      OpResult.err (Err.addIDExists "c1") c3Db ∧
    (Err.addIDExists "c1").defineKind = DefineErr.errCtrExists :=
  c3_add_duplicate_fails.1 "" c3Ctr none c3Db none "web" (by decide) rfl rfl

/-- Claim C6: with the field's key present in `runtime-config`,
`readOnlyValidateConfig` accepts iff the stored value is byte-equal to the
runtime value, or one side (stored or runtime) is empty and the other
equals the declared default; otherwise it fails with the bad-configuration
kind naming the field and carrying both values. -/
theorem c6_validate_present_iff (bucket : List (String × String))
    (c : DbConfigValidation) (dbValue : String)
    (h : alGet bucket c.key = some dbValue) :
    (((readOnlyValidateConfig bucket c).2 = none) ↔
      (dbValue = c.runtimeValue ∨
       (c.runtimeValue = "" ∧ dbValue = c.defaultValue) ∨
       (dbValue = "" ∧ c.runtimeValue = c.defaultValue))) ∧
    (∀ e, (readOnlyValidateConfig bucket c).2 = some e →
       e = Err.badConfigMismatch c.name dbValue c.runtimeValue ∧
       e.defineKind = DefineErr.errDBBadConfig) := by
  simp only [readOnlyValidateConfig, h]
  by_cases h1 : c.runtimeValue = dbValue
  · rw [if_neg (fun hc => hc h1)]
    constructor
    · simp [h1]
    · intro e he; simp at he
  · rw [if_pos h1]
    by_cases h2 : c.runtimeValue = "" ∧ c.defaultValue ≠ "" ∧
        dbValue = c.defaultValue
    · rw [if_pos h2]
      constructor
      · simp [h2.1, h2.2.2]
      · intro e he; simp at he
    · rw [if_neg h2]
      by_cases h3 : dbValue = "" ∧ c.defaultValue ≠ "" ∧
          c.runtimeValue = c.defaultValue
      · rw [if_pos h3]
        constructor
        · simp [h3.1, h3.2.2]
        · intro e he; simp at he
      · rw [if_neg h3]
        constructor
        · constructor
          · intro hc; simp at hc
          · intro hr
            exfalso
            rcases hr with hr | ⟨hra, hrb⟩ | ⟨hra, hrb⟩
            · exact h1 hr.symm
            · by_cases hd : c.defaultValue = ""
              · exact h1 (by rw [hra, hrb, hd])
              · exact h2 ⟨hra, hd, hrb⟩
            · by_cases hd : c.defaultValue = ""
              · exact h1 (by rw [hrb, hd, hra])
              · exact h3 ⟨hra, hd, hrb⟩
        · intro e he
          have he2 : Err.badConfigMismatch c.name dbValue c.runtimeValue = e := by
            simpa using he
          subst he2
          exact ⟨rfl, rfl⟩

/-- Witness for C6: stored `graph-driver-name = overlay` against runtime
value `vfs` (default `overlay`) is a mismatch: the acceptance condition is
false and the returned error is the bad-configuration one naming the field
and both values. -/
theorem c6_validate_present_iff_witness :
    (((readOnlyValidateConfig c6Bucket c6Check).2 = none) ↔
      ("overlay" = "vfs" ∨ ("vfs" = "" ∧ "overlay" = "overlay") ∨
       ("overlay" = "" ∧ "vfs" = "overlay"))) ∧
    (readOnlyValidateConfig c6Bucket c6Check).2 =
      some (Err.badConfigMismatch "storage graph driver" "overlay" "vfs") :=
  ⟨(c6_validate_present_iff c6Bucket c6Check "overlay" rfl).1, rfl⟩

theorem readOnlyValidateConfig_absent {bucket : List (String × String)}
    {c : DbConfigValidation} (h : alGet bucket c.key = none) :
    readOnlyValidateConfig bucket c = (false, none) := by
  simp [readOnlyValidateConfig, h]

theorem readOnlyValidateConfig_fst_false {bucket : List (String × String)}
    {c : DbConfigValidation}
    (h : (readOnlyValidateConfig bucket c).1 = false) :
    alGet bucket c.key = none := by
  unfold readOnlyValidateConfig at h
  split at h
  · assumption
  · repeat' split at h
    all_goals simp at h

theorem checkRuntimeConfigLoop_sublist {bucket : List (String × String)}
    {checks ms : List DbConfigValidation}
    (h : checkRuntimeConfigLoop bucket checks = .ok ms) : ms.Sublist checks := by
  induction checks generalizing ms with
  | nil =>
    simp only [checkRuntimeConfigLoop, Except.ok.injEq] at h
    subst h
    exact List.Sublist.refl []
  | cons c rest ih =>
    simp only [checkRuntimeConfigLoop] at h
    split at h
    · exact Except.noConfusion h
    · rename_i ex hrc
      split at h
      · exact Except.noConfusion h
      · rename_i ms1 hloop
        injection h with h
        subst h
        by_cases hex : ex = true
        · simp only [hex, if_pos]
          exact (ih hloop).cons c
        · simp only [hex, if_neg, Bool.false_eq_true, if_false]
          exact (ih hloop).cons₂ c

theorem checkRuntimeConfigLoop_mem_of_absent {bucket : List (String × String)}
    {checks ms : List DbConfigValidation}
    (h : checkRuntimeConfigLoop bucket checks = .ok ms) :
    ∀ c ∈ checks, alGet bucket c.key = none → c ∈ ms := by
  induction checks generalizing ms with
  | nil => intro c hc; simp at hc
  | cons c0 rest ih =>
    simp only [checkRuntimeConfigLoop] at h
    split at h
    · exact Except.noConfusion h
    · rename_i ex hrc
      split at h
      · exact Except.noConfusion h
      · rename_i ms1 hloop
        injection h with h
        subst h
        intro c hc habs
        rcases List.mem_cons.mp hc with rfl | hmem
        · have hfalse : ex = false := by
            have h2 := readOnlyValidateConfig_absent (c := c) habs
            rw [h2] at hrc
            exact (congrArg Prod.fst hrc).symm
          rw [hfalse]
          simp
        · have hms1 := ih hloop c hmem habs
          by_cases hex : ex = true
          · simpa [hex] using hms1
          · simp only [hex, Bool.false_eq_true, if_false]
            exact List.mem_cons_of_mem _ hms1

theorem checkRuntimeConfigLoop_absent_of_mem {bucket : List (String × String)}
    {checks ms : List DbConfigValidation}
    (h : checkRuntimeConfigLoop bucket checks = .ok ms) :
    ∀ c ∈ ms, alGet bucket c.key = none := by
  induction checks generalizing ms with
  | nil =>
    simp only [checkRuntimeConfigLoop, Except.ok.injEq] at h
    subst h
    intro c hc
    simp at hc
  | cons c0 rest ih =>
    simp only [checkRuntimeConfigLoop] at h
    split at h
    · exact Except.noConfusion h
    · rename_i ex hrc
      split at h
      · exact Except.noConfusion h
      · rename_i ms1 hloop
        injection h with h
        subst h
        intro c hc
        by_cases hex : ex = true
        · rw [hex] at hc
          simp only [if_pos] at hc
          exact ih hloop c hc
        · simp only [hex, Bool.false_eq_true, if_false] at hc
          rcases List.mem_cons.mp hc with rfl | hmem
          · refine readOnlyValidateConfig_fst_false ?_
            rw [hrc]
            simpa using (Bool.eq_false_iff.mpr hex)
          · exact ih hloop c hmem

theorem writeMissing_not_mem {bucket : List (String × String)}
    {ms : List DbConfigValidation} {k : String}
    (h : k ∉ ms.map DbConfigValidation.key) :
    alGet (writeMissing bucket ms) k = alGet bucket k := by
  induction ms generalizing bucket with
  | nil => rfl
  | cons m rest ih =>
    simp only [List.map_cons, List.mem_cons] at h
    push_neg at h
    simp only [writeMissing]
    rw [ih h.2, alGet_alPut_ne _ _ _ _ (fun he => h.1 he.symm)]

theorem writeMissing_mem {bucket : List (String × String)}
    {ms : List DbConfigValidation} {c : DbConfigValidation}
    (hnd : (ms.map DbConfigValidation.key).Nodup) (hc : c ∈ ms) :
    alGet (writeMissing bucket ms) c.key =
      some (if c.runtimeValue = "" ∧ c.defaultValue ≠ "" then c.defaultValue
        else c.runtimeValue) := by
  induction ms generalizing bucket with
  | nil => simp at hc
  | cons m rest ih =>
    simp only [List.map_cons, List.nodup_cons] at hnd
    rcases List.mem_cons.mp hc with rfl | hmem
    · simp only [writeMissing]
      rw [writeMissing_not_mem hnd.1, alGet_alPut_self]
    · exact ih hnd.2 hmem

theorem cfgWriteValue_eq (c : DbConfigValidation) :
    (if c.runtimeValue = "" ∧ c.defaultValue ≠ "" then c.defaultValue
      else c.runtimeValue) =
    (if c.runtimeValue = "" then c.defaultValue else c.runtimeValue) := by
  by_cases h1 : c.runtimeValue = "" <;> by_cases h2 : c.defaultValue = "" <;>
    simp [h1, h2]

/-- Claim C7: given a clean read pass (`checkRuntimeConfigLoop` succeeds
with missing list `missing`) over checks with pairwise-distinct keys,
`checkRuntimeConfig` succeeds; when no field is missing it returns the
store unchanged (no write); and every field whose key was absent ends up
stored with the runtime value, or the declared default when the runtime
value is empty. -/
theorem c7_check_runtime_config_populates (checks : List DbConfigValidation)
    (db : DB) (missing : List DbConfigValidation)
    (hnd : (checks.map DbConfigValidation.key).Nodup)
    (hloop : checkRuntimeConfigLoop db.runtimeConfig checks = .ok missing) :
    checkRuntimeConfig checks db =
      OpResult.ok (if missing.isEmpty then db
        else { db with runtimeConfig := writeMissing db.runtimeConfig missing }) ∧
    ((∀ c ∈ checks, alGet db.runtimeConfig c.key ≠ none) →
       checkRuntimeConfig checks db = OpResult.ok db) ∧
    (∀ c ∈ checks, alGet db.runtimeConfig c.key = none →
       alGet (writeMissing db.runtimeConfig missing) c.key =
         some (if c.runtimeValue = "" then c.defaultValue
           else c.runtimeValue)) := by
  have hrun : checkRuntimeConfig checks db =
      OpResult.ok (if missing.isEmpty then db
        else { db with runtimeConfig := writeMissing db.runtimeConfig missing }) := by
    simp only [checkRuntimeConfig, hloop]
    split <;> rfl
  refine ⟨hrun, ?_, ?_⟩
  · intro hpres
    have hempty : missing = [] := by
      refine List.eq_nil_iff_forall_not_mem.mpr (fun c hc => ?_)
      have hsub := checkRuntimeConfigLoop_sublist hloop
      exact hpres c (hsub.subset hc)
        (checkRuntimeConfigLoop_absent_of_mem hloop c hc)
    rw [hempty] at hrun
    simpa using hrun
  · intro c hcheck habs
    have hm : c ∈ missing :=
      checkRuntimeConfigLoop_mem_of_absent hloop c hcheck habs
    have hnd2 : (missing.map DbConfigValidation.key).Nodup :=
      hnd.sublist ((checkRuntimeConfigLoop_sublist hloop).map _)
    rw [writeMissing_mem hnd2 hm, cfgWriteValue_eq]

/-- Witness for C7: attaching the `c7Checks` runtime to the empty store —
every key is missing, and the graph-driver field (runtime value empty,
default `overlay`) is populated with `overlay`. -/
theorem c7_check_runtime_config_populates_witness :
    checkRuntimeConfig c7Checks emptyDB =
      OpResult.ok (if c7Checks.isEmpty then emptyDB
        else { emptyDB with
          runtimeConfig := writeMissing emptyDB.runtimeConfig c7Checks }) ∧
    alGet (writeMissing emptyDB.runtimeConfig c7Checks) "graph-driver-name" =
      some "overlay" := by
  have h := c7_check_runtime_config_populates c7Checks emptyDB c7Checks
    (by decide) rfl
  refine ⟨h.1, ?_⟩
  have h3 := h.2.2 c7GraphDriverCheck (by decide) rfl
  simpa using h3

theorem addCtrDeps_ne_fault {ctrID ctrName : String}
    {ctrNamespace : Option String} {ctrNS : String} {podIDOpt : Option String}
    {deps : List String} {m : List (String × CtrBkt)} :
    addCtrDeps ctrID ctrName ctrNamespace ctrNS podIDOpt deps m ≠
      TxOut.fault := by
  induction deps generalizing m with
  | nil => simp [addCtrDeps]
  | cons d rest ih =>
    intro h
    simp only [addCtrDeps] at h
    split at h
    · exact TxOut.noConfusion h
    · split at h
      · exact TxOut.noConfusion h
      · split at h
        · split at h
          · exact TxOut.noConfusion h
          · exact ih h
        · exact TxOut.noConfusion h

theorem addCtrVolDeps_ne_fault {ctrID : String} {vols : List String}
    {volMap : List (String × VolBkt)}
    (hv : ∀ e ∈ volMap, (e.2).volDependencies ≠ none) :
    addCtrVolDeps ctrID vols volMap ≠ TxOut.fault := by
  induction vols generalizing volMap with
  | nil => simp [addCtrVolDeps]
  | cons v rest ih =>
    intro h
    simp only [addCtrVolDeps] at h
    split at h
    · exact TxOut.noConfusion h
    · rename_i volDB hvol
      split at h
      · rename_i hnone
        exact hv (v, volDB) (alGet_mem hvol) hnone
      · split at h
        · refine ih ?_ h
          intro e he
          rcases mem_alPut he with he2 | he2
          · exact hv e he2
          · rw [he2]; simp
        · exact ih hv h

theorem rmVolDeps_ne_fault {ctrID : String} {vols : List String}
    {volMap : List (String × VolBkt)}
    (hv : ∀ e ∈ volMap, (e.2).volDependencies ≠ none) :
    rmVolDeps ctrID vols volMap ≠ TxOut.fault := by
  induction vols generalizing volMap with
  | nil => simp [rmVolDeps]
  | cons v rest ih =>
    intro h
    simp only [rmVolDeps] at h
    split at h
    · exact ih hv h
    · rename_i volDB hvol
      split at h
      · rename_i hnone
        exact hv (v, volDB) (alGet_mem hvol) hnone
      · split at h
        · refine ih ?_ h
          intro e he
          rcases mem_alPut he with he2 | he2
          · exact hv e he2
          · rw [he2]; simp
        · exact ih hv h

theorem addContainer_ne_fault {sns : String} {ctr : Container}
    {pod : Option Pod} {db : DB}
    (hv : ∀ e ∈ db.vol, (e.2).volDependencies ≠ none) :
    addContainer sns ctr pod db ≠ OpResult.fault := by
  intro h
  unfold addContainer at h
  have hb := runTx_eq_fault.mp h
  unfold addContainerBody at hb
  by_cases h0 : sns ≠ "" ∧ sns ≠ ctr.config.ns
  · rw [if_pos h0] at hb
    exact TxOut.noConfusion hb
  · rw [if_neg h0] at hb
    simp only [putNSRegistry_ctr, putNSRegistry_idRegistry,
      putNSRegistry_nameRegistry, putNSRegistry_vol, putPodCtrEntry_idRegistry,
      putPodCtrEntry_vol] at hb
    repeat' split at hb
    all_goals try exact TxOut.noConfusion hb
    all_goals rename_i heq
    all_goals first
      | exact addCtrDeps_ne_fault heq
      | exact addCtrVolDeps_ne_fault hv heq

theorem removeContainer_ne_fault {sns : String} {ctr : Container}
    {pod : Option Pod} {db : DB}
    (hv : ∀ e ∈ db.vol, (e.2).volDependencies ≠ none) :
    removeContainer sns ctr pod db ≠ OpResult.fault := by
  intro h
  unfold removeContainer at h
  have hb := runTx_eq_fault.mp h
  unfold removeContainerBody at hb
  simp only [ne_eq] at hb
  repeat' split at hb
  all_goals try exact TxOut.noConfusion hb
  all_goals rename_i heq
  all_goals exact rmVolDeps_ne_fault hv heq

/-- Claim C10: the volume back-reference steps of `addContainer` and
`removeContainer` access a volume's `vol-dependencies` sub-bucket with no
`nil` guard: when every sub-bucket under `vol` contains a
`vol-dependencies` sub-bucket the operations never fault, and on a store
whose volume lacks that sub-bucket each operation faults (a `nil`
dereference) instead of returning an internal error. -/
theorem c10_voldeps_nil_guard :
    (∀ (sns : String) (ctr : Container) (pod : Option Pod) (db : DB),
       (∀ e ∈ db.vol, (e.2).volDependencies ≠ none) →
       addContainer sns ctr pod db ≠ OpResult.fault ∧
       removeContainer sns ctr pod db ≠ OpResult.fault) ∧
    addContainer "" c10Ctr none c10AddDb = OpResult.fault ∧
    removeContainer "" c10Ctr none c10RmDb = OpResult.fault := by
  refine ⟨?_, by decide, by decide⟩
  intro sns ctr pod db hv
  exact ⟨addContainer_ne_fault hv, removeContainer_ne_fault hv⟩

/-- Witness for C10: on the empty store (every volume trivially carries its
`vol-dependencies` sub-bucket) neither operation faults. -/
theorem c10_voldeps_nil_guard_witness :
    addContainer "" c10Ctr none emptyDB ≠ OpResult.fault ∧
    removeContainer "" c10Ctr none emptyDB ≠ OpResult.fault :=
  c10_voldeps_nil_guard.1 "" c10Ctr none emptyDB (by decide)

end Libpod
